import Mathlib

/-!
Verification of the clara JSON-RPC gateway (src/lib.rs, src/rpc.rs, src/main.rs).

The gateway exposes a fixed `zks` namespace of 21 methods; each handler forwards
the inbound parameters to the identically named operation of an upstream
jsonrpsee HTTP client and returns the upstream result unchanged, translating any
upstream failure into one flat error object with a fixed code.

Shallow embedding conventions:
  * The external upstream client (jsonrpsee `HttpClient`) is an oracle: a record
    with one field per trait method, each mapping the method's parameters to
    `Except ClientError result`.  Theorems quantify over that oracle.
  * Each Rust handler body is a single awaited upstream call followed by
    `map_err(Into::into)`.  The Lean handler returns the translated result paired
    with the ordered list of upstream calls the body performs (always a
    singleton, which is exactly what the body shows).
  * Rust `&self` receiver: a handler reads the server and cannot mutate it, so
    the dispatcher returns the server value alongside the response, and the
    returned value is the input server, which is what the borrow means.
  * `Server::run` binds via `ServerBuilder::default().build("127.0.0.1:7000")`
    followed by `.unwrap()`: a failed bind is a Rust panic, modelled by the
    `RunResult.panicked` constructor; `local_addr()?` propagates as `Err`.
-/

/-- External zksync type `CallRequest` (a transaction-call description).  The
gateway moves it without inspection, so it is represented by an abstract tag. -/
structure CallRequest where
  val : Nat

/-- External type `Address` (H160), opaque to the gateway. -/
structure Address where
  val : Nat

/-- External type `H256` (32-byte hash), opaque to the gateway. -/
structure H256 where
  val : Nat

/-- External type `U256` (256-bit unsigned integer), opaque to the gateway. -/
structure U256 where
  val : Nat

/-- External type `U64` (64-bit unsigned integer), opaque to the gateway. -/
structure U64 where
  val : Nat

/-- External type `BigDecimal`: an arbitrary-precision decimal, carried by the
gateway at full precision without rounding; represented as mantissa and scale. -/
structure BigDecimal where
  mantissa : Int
  scale : Nat

/-- External type `Token` (a token descriptor), opaque to the gateway. -/
structure Token where
  val : Nat

/-- External type `MiniblockNumber` (a u32 newtype), opaque to the gateway. -/
structure MiniblockNumber where
  val : Nat

/-- External type `L1BatchNumber` (a u32 newtype), opaque to the gateway. -/
structure L1BatchNumber where
  val : Nat

/-- External type `BridgeAddresses`, opaque to the gateway. -/
structure BridgeAddresses where
  val : Nat

/-- External type `L2ToL1LogProof`, opaque to the gateway. -/
structure L2ToL1LogProof where
  val : Nat

/-- External type `BlockDetails`, opaque to the gateway. -/
structure BlockDetails where
  val : Nat

/-- External type `TransactionDetails`, opaque to the gateway. -/
structure TransactionDetails where
  val : Nat

/-- External type `zksync_types::Transaction` (a raw transaction), opaque to the
gateway. -/
structure Transaction where
  val : Nat

/-- External type `L1BatchDetails`, opaque to the gateway. -/
structure L1BatchDetails where
  val : Nat

/-- External type `FeeParams`, opaque to the gateway. -/
structure FeeParams where
  val : Nat

/-- External type `ProtocolVersion`, opaque to the gateway. -/
structure ProtocolVersion where
  val : Nat

/-- External type `Proof` (a storage proof), opaque to the gateway. -/
structure Proof where
  val : Nat

/-- The failure type of the external jsonrpsee client
(`jsonrpsee::core::ClientError`): either a structured JSON-RPC error object
received from the upstream service (code, message, optional data payload), or
any other client-side failure (connection failure, timeout, response-decoding
failure, ...) collapsed into its rendered description. -/
inductive ClientError where
  | call (code : Int) (message : String) (data : Option String)
  | transport (description : String)

/-- Modelled from the spec: the `Display` rendering of the external client
error (used by `error.to_string()` through the transparent `thiserror`
attribute).  Per the spec's error-translation contract, a structured upstream
error renders as exactly its message text (original code and payload
discarded), and any other failure renders as its human-readable description. -/
def ClientError.render : ClientError → String
  | ClientError.call _ message _ => message
  | ClientError.transport description => description

/-- `ClaraError` from src/lib.rs: either a wrapped client error (the
`#[from] jsonrpsee::core::ClientError` variant) or any other internal failure
(the `#[from] anyhow::Error` variant), kept as its rendered description.  Both
variants are `#[error(transparent)]`. -/
inductive ClaraError where
  | clientError (e : ClientError)
  | other (description : String)

/-- The `Display` rendering of `ClaraError` (`error.to_string()`): transparent,
so it is the inner failure's rendering. -/
def ClaraError.render : ClaraError → String
  | ClaraError.clientError e => e.render
  | ClaraError.other d => d

/-- The fixed sentinel error code used in `From<ClaraError> for ErrorObject`
(src/lib.rs line 14). -/
def sentinelCode : Int := -32000

/-- A JSON-RPC error object as put on the wire (`jsonrpsee::types::ErrorObject`):
code, message, and optional data payload. -/
structure ErrorObject where
  code : Int
  message : String
  data : Option String

/-- `From<ClaraError> for ErrorObject` (src/lib.rs lines 12-16):
`ErrorObject::owned(-32000, error.to_string(), None)`. -/
def ClaraError.toErrorObject (e : ClaraError) : ErrorObject :=
  { code := sentinelCode, message := e.render, data := none }

/-- `map_err(Into::into)` with the derived `From<ClientError> for ClaraError`
instance: wraps a client failure into `ClaraError.clientError`, passes a
success through unchanged. -/
def mapClientError {α : Type} : Except ClientError α → Except ClaraError α
  | Except.ok a => Except.ok a
  | Except.error e => Except.error (ClaraError.clientError e)

/-- The jsonrpsee server layer's conversion of a handler's failure into the
outbound wire error, via the `From<ClaraError> for ErrorObject` instance. -/
def wireResult {α : Type} : Except ClaraError α → Except ErrorObject α
  | Except.ok a => Except.ok a
  | Except.error e => Except.error e.toErrorObject

/-- The upstream client interface (the client half generated from the `ZksApi`
trait, src/rpc.rs lines 45-145), as an oracle: one field per trait method,
with the method's parameters in declaration order.  Rust `u32`/`u8`/`u16`/
`usize` parameters are carried as `Nat` (no arithmetic is ever performed on
them); `HashMap<Address, U256>` is carried as an association list. -/
structure ZksClient where
  estimate_gas_l1_to_l2 : CallRequest → Except ClientError U256
  get_main_contract : Except ClientError Address
  get_testnet_paymaster : Except ClientError (Option Address)
  get_bridge_contracts : Except ClientError BridgeAddresses
  l1_chain_id : Except ClientError U64
  get_confirmed_tokens : Nat → Nat → Except ClientError (List Token)
  get_token_price : Address → Except ClientError BigDecimal
  get_all_account_balances : Address → Except ClientError (List (Address × U256))
  get_l2_to_l1_msg_proof :
    MiniblockNumber → Address → H256 → Option Nat → Except ClientError (Option L2ToL1LogProof)
  get_l2_to_l1_log_proof : H256 → Option Nat → Except ClientError (Option L2ToL1LogProof)
  get_l1_batch_number : Except ClientError U64
  get_miniblock_range : L1BatchNumber → Except ClientError (Option (U64 × U64))
  get_block_details : MiniblockNumber → Except ClientError (Option BlockDetails)
  get_transaction_details : H256 → Except ClientError (Option TransactionDetails)
  get_raw_block_transactions : MiniblockNumber → Except ClientError (List Transaction)
  get_l1_batch_details : L1BatchNumber → Except ClientError (Option L1BatchDetails)
  get_bytecode_by_hash : H256 → Except ClientError (Option (List Nat))
  get_l1_gas_price : Except ClientError U64
  get_fee_params : Except ClientError FeeParams
  get_protocol_version : Option Nat → Except ClientError (Option ProtocolVersion)
  get_proof : Address → List H256 → L1BatchNumber → Except ClientError Proof

/-- The gateway server (src/rpc.rs lines 23-26): one field, the upstream
client. -/
structure Server where
  zksync : ZksClient

/-- `Server::new` (src/rpc.rs lines 29-31). -/
def Server.new (zksync : ZksClient) : Server :=
  { zksync := zksync }

/-- One inbound invocation of a declared `zks` method, with its decoded
parameters; the same shape records the outbound upstream call a handler makes,
since the surface is a 1:1 pass-through.  Constructors are named by wire
method name, parameters in declared order. -/
inductive ZksCall where
  | estimateGasL1ToL2 (req : CallRequest)
  | getMainContract
  | getTestnetPaymaster
  | getBridgeContracts
  | l1ChainId
  | getConfirmedTokens (from_ : Nat) (limit : Nat)
  | getTokenPrice (tokenAddress : Address)
  | getAllAccountBalances (address : Address)
  | getL2ToL1MsgProof (block : MiniblockNumber) (sender : Address) (msg : H256)
      (l2LogPosition : Option Nat)
  | getL2ToL1LogProof (txHash : H256) (index : Option Nat)
  | l1BatchNumber
  | getL1BatchBlockRange (batch : L1BatchNumber)
  | getBlockDetails (blockNumber : MiniblockNumber)
  | getTransactionDetails (hash : H256)
  | getRawBlockTransactions (blockNumber : MiniblockNumber)
  | getL1BatchDetails (batch : L1BatchNumber)
  | getBytecodeByHash (hash : H256)
  | getL1GasPrice
  | getFeeParams
  | getProtocolVersion (versionId : Option Nat)
  | getProof (address : Address) (keys : List H256) (l1BatchNumber : L1BatchNumber)

/-- Handler `estimate_gas_l1_to_l2` (src/rpc.rs lines 149-154): one upstream
call with the same parameter, failure translated by `map_err(Into::into)`. -/
def Server.estimate_gas_l1_to_l2 (s : Server) (req : CallRequest) :
    Except ClaraError U256 × List ZksCall :=
  (mapClientError (s.zksync.estimate_gas_l1_to_l2 req), [ZksCall.estimateGasL1ToL2 req])

/-- Handler `get_main_contract` (src/rpc.rs lines 156-158). -/
def Server.get_main_contract (s : Server) : Except ClaraError Address × List ZksCall :=
  (mapClientError s.zksync.get_main_contract, [ZksCall.getMainContract])

/-- Handler `get_testnet_paymaster` (src/rpc.rs lines 160-165). -/
def Server.get_testnet_paymaster (s : Server) :
    Except ClaraError (Option Address) × List ZksCall :=
  (mapClientError s.zksync.get_testnet_paymaster, [ZksCall.getTestnetPaymaster])

/-- Handler `get_bridge_contracts` (src/rpc.rs lines 167-169). -/
def Server.get_bridge_contracts (s : Server) :
    Except ClaraError BridgeAddresses × List ZksCall :=
  (mapClientError s.zksync.get_bridge_contracts, [ZksCall.getBridgeContracts])

/-- Handler `l1_chain_id` (src/rpc.rs lines 171-173). -/
def Server.l1_chain_id (s : Server) : Except ClaraError U64 × List ZksCall :=
  (mapClientError s.zksync.l1_chain_id, [ZksCall.l1ChainId])

/-- Handler `get_confirmed_tokens` (src/rpc.rs lines 175-180). -/
def Server.get_confirmed_tokens (s : Server) (from_ : Nat) (limit : Nat) :
    Except ClaraError (List Token) × List ZksCall :=
  (mapClientError (s.zksync.get_confirmed_tokens from_ limit),
   [ZksCall.getConfirmedTokens from_ limit])

/-- Handler `get_token_price` (src/rpc.rs lines 182-187). -/
def Server.get_token_price (s : Server) (tokenAddress : Address) :
    Except ClaraError BigDecimal × List ZksCall :=
  (mapClientError (s.zksync.get_token_price tokenAddress),
   [ZksCall.getTokenPrice tokenAddress])

/-- Handler `get_all_account_balances` (src/rpc.rs lines 189-197). -/
def Server.get_all_account_balances (s : Server) (address : Address) :
    Except ClaraError (List (Address × U256)) × List ZksCall :=
  (mapClientError (s.zksync.get_all_account_balances address),
   [ZksCall.getAllAccountBalances address])

/-- Handler `get_l2_to_l1_msg_proof` (src/rpc.rs lines 199-210). -/
def Server.get_l2_to_l1_msg_proof (s : Server) (block : MiniblockNumber) (sender : Address)
    (msg : H256) (l2LogPosition : Option Nat) :
    Except ClaraError (Option L2ToL1LogProof) × List ZksCall :=
  (mapClientError (s.zksync.get_l2_to_l1_msg_proof block sender msg l2LogPosition),
   [ZksCall.getL2ToL1MsgProof block sender msg l2LogPosition])

/-- Handler `get_l2_to_l1_log_proof` (src/rpc.rs lines 212-221). -/
def Server.get_l2_to_l1_log_proof (s : Server) (txHash : H256) (index : Option Nat) :
    Except ClaraError (Option L2ToL1LogProof) × List ZksCall :=
  (mapClientError (s.zksync.get_l2_to_l1_log_proof txHash index),
   [ZksCall.getL2ToL1LogProof txHash index])

/-- Handler `get_l1_batch_number` (src/rpc.rs lines 223-225). -/
def Server.get_l1_batch_number (s : Server) : Except ClaraError U64 × List ZksCall :=
  (mapClientError s.zksync.get_l1_batch_number, [ZksCall.l1BatchNumber])

/-- Handler `get_miniblock_range` (src/rpc.rs lines 227-235). -/
def Server.get_miniblock_range (s : Server) (batch : L1BatchNumber) :
    Except ClaraError (Option (U64 × U64)) × List ZksCall :=
  (mapClientError (s.zksync.get_miniblock_range batch),
   [ZksCall.getL1BatchBlockRange batch])

/-- Handler `get_block_details` (src/rpc.rs lines 237-245). -/
def Server.get_block_details (s : Server) (blockNumber : MiniblockNumber) :
    Except ClaraError (Option BlockDetails) × List ZksCall :=
  (mapClientError (s.zksync.get_block_details blockNumber),
   [ZksCall.getBlockDetails blockNumber])

/-- Handler `get_transaction_details` (src/rpc.rs lines 247-255). -/
def Server.get_transaction_details (s : Server) (hash : H256) :
    Except ClaraError (Option TransactionDetails) × List ZksCall :=
  (mapClientError (s.zksync.get_transaction_details hash),
   [ZksCall.getTransactionDetails hash])

/-- Handler `get_raw_block_transactions` (src/rpc.rs lines 257-265). -/
def Server.get_raw_block_transactions (s : Server) (blockNumber : MiniblockNumber) :
    Except ClaraError (List Transaction) × List ZksCall :=
  (mapClientError (s.zksync.get_raw_block_transactions blockNumber),
   [ZksCall.getRawBlockTransactions blockNumber])

/-- Handler `get_l1_batch_details` (src/rpc.rs lines 267-275). -/
def Server.get_l1_batch_details (s : Server) (batch : L1BatchNumber) :
    Except ClaraError (Option L1BatchDetails) × List ZksCall :=
  (mapClientError (s.zksync.get_l1_batch_details batch),
   [ZksCall.getL1BatchDetails batch])

/-- Handler `get_bytecode_by_hash` (src/rpc.rs lines 277-282). -/
def Server.get_bytecode_by_hash (s : Server) (hash : H256) :
    Except ClaraError (Option (List Nat)) × List ZksCall :=
  (mapClientError (s.zksync.get_bytecode_by_hash hash),
   [ZksCall.getBytecodeByHash hash])

/-- Handler `get_l1_gas_price` (src/rpc.rs lines 284-286). -/
def Server.get_l1_gas_price (s : Server) : Except ClaraError U64 × List ZksCall :=
  (mapClientError s.zksync.get_l1_gas_price, [ZksCall.getL1GasPrice])

/-- Handler `get_fee_params` (src/rpc.rs lines 288-290). -/
def Server.get_fee_params (s : Server) : Except ClaraError FeeParams × List ZksCall :=
  (mapClientError s.zksync.get_fee_params, [ZksCall.getFeeParams])

/-- Handler `get_protocol_version` (src/rpc.rs lines 292-300). -/
def Server.get_protocol_version (s : Server) (versionId : Option Nat) :
    Except ClaraError (Option ProtocolVersion) × List ZksCall :=
  (mapClientError (s.zksync.get_protocol_version versionId),
   [ZksCall.getProtocolVersion versionId])

/-- Handler `get_proof` (src/rpc.rs lines 302-312). -/
def Server.get_proof (s : Server) (address : Address) (keys : List H256)
    (l1BatchNumber : L1BatchNumber) : Except ClaraError Proof × List ZksCall :=
  (mapClientError (s.zksync.get_proof address keys l1BatchNumber),
   [ZksCall.getProof address keys l1BatchNumber])

/-- One wire response value: the sum of the 21 declared result types, so that
the per-method handlers can be exposed behind one dispatcher. -/
inductive RpcValue where
  | u256 (v : U256)
  | address (a : Address)
  | optAddress (a : Option Address)
  | bridgeAddresses (b : BridgeAddresses)
  | u64 (v : U64)
  | tokens (ts : List Token)
  | decimal (d : BigDecimal)
  | balances (m : List (Address × U256))
  | optLogProof (p : Option L2ToL1LogProof)
  | optBlockRange (r : Option (U64 × U64))
  | optBlockDetails (d : Option BlockDetails)
  | optTxDetails (d : Option TransactionDetails)
  | rawTransactions (ts : List Transaction)
  | optBatchDetails (d : Option L1BatchDetails)
  | optBytecode (b : Option (List Nat))
  | feeParams (p : FeeParams)
  | optProtocolVersion (p : Option ProtocolVersion)
  | storageProof (p : Proof)

/-- What the upstream client answers to one call: the matching client operation
applied to the call's parameters, with the typed result injected into
`RpcValue`.  This describes the oracle's response to a call, independently of
the gateway's handlers; agreement of the gateway with it is what the
pass-through theorems state. -/
def ZksClient.respond (c : ZksClient) : ZksCall → Except ClientError RpcValue
  | ZksCall.estimateGasL1ToL2 req => (c.estimate_gas_l1_to_l2 req).map RpcValue.u256
  | ZksCall.getMainContract => c.get_main_contract.map RpcValue.address
  | ZksCall.getTestnetPaymaster => c.get_testnet_paymaster.map RpcValue.optAddress
  | ZksCall.getBridgeContracts => c.get_bridge_contracts.map RpcValue.bridgeAddresses
  | ZksCall.l1ChainId => c.l1_chain_id.map RpcValue.u64
  | ZksCall.getConfirmedTokens from_ limit =>
      (c.get_confirmed_tokens from_ limit).map RpcValue.tokens
  | ZksCall.getTokenPrice tokenAddress =>
      (c.get_token_price tokenAddress).map RpcValue.decimal
  | ZksCall.getAllAccountBalances address =>
      (c.get_all_account_balances address).map RpcValue.balances
  | ZksCall.getL2ToL1MsgProof block sender msg pos =>
      (c.get_l2_to_l1_msg_proof block sender msg pos).map RpcValue.optLogProof
  | ZksCall.getL2ToL1LogProof txHash index =>
      (c.get_l2_to_l1_log_proof txHash index).map RpcValue.optLogProof
  | ZksCall.l1BatchNumber => c.get_l1_batch_number.map RpcValue.u64
  | ZksCall.getL1BatchBlockRange batch =>
      (c.get_miniblock_range batch).map RpcValue.optBlockRange
  | ZksCall.getBlockDetails blockNumber =>
      (c.get_block_details blockNumber).map RpcValue.optBlockDetails
  | ZksCall.getTransactionDetails hash =>
      (c.get_transaction_details hash).map RpcValue.optTxDetails
  | ZksCall.getRawBlockTransactions blockNumber =>
      (c.get_raw_block_transactions blockNumber).map RpcValue.rawTransactions
  | ZksCall.getL1BatchDetails batch =>
      (c.get_l1_batch_details batch).map RpcValue.optBatchDetails
  | ZksCall.getBytecodeByHash hash =>
      (c.get_bytecode_by_hash hash).map RpcValue.optBytecode
  | ZksCall.getL1GasPrice => c.get_l1_gas_price.map RpcValue.u64
  | ZksCall.getFeeParams => c.get_fee_params.map RpcValue.feeParams
  | ZksCall.getProtocolVersion versionId =>
      (c.get_protocol_version versionId).map RpcValue.optProtocolVersion
  | ZksCall.getProof address keys l1BatchNumber =>
      (c.get_proof address keys l1BatchNumber).map RpcValue.storageProof

/-- The method routing the `#[rpc]` macro registers: namespace + method name
to handler, a direct lookup.  The dispatcher invokes the one matching handler
with the decoded parameters and returns the handler's response (injected into
`RpcValue`), the handler's outbound-call record, and the server value after the
call — the input server itself, the translation of the `&self` receiver. -/
def dispatchCall (s : Server) : ZksCall → (Except ClaraError RpcValue × List ZksCall) × Server
  | ZksCall.estimateGasL1ToL2 req =>
      let (r, calls) := Server.estimate_gas_l1_to_l2 s req
      ((r.map RpcValue.u256, calls), s)
  | ZksCall.getMainContract =>
      let (r, calls) := Server.get_main_contract s
      ((r.map RpcValue.address, calls), s)
  | ZksCall.getTestnetPaymaster =>
      let (r, calls) := Server.get_testnet_paymaster s
      ((r.map RpcValue.optAddress, calls), s)
  | ZksCall.getBridgeContracts =>
      let (r, calls) := Server.get_bridge_contracts s
      ((r.map RpcValue.bridgeAddresses, calls), s)
  | ZksCall.l1ChainId =>
      let (r, calls) := Server.l1_chain_id s
      ((r.map RpcValue.u64, calls), s)
  | ZksCall.getConfirmedTokens from_ limit =>
      let (r, calls) := Server.get_confirmed_tokens s from_ limit
      ((r.map RpcValue.tokens, calls), s)
  | ZksCall.getTokenPrice tokenAddress =>
      let (r, calls) := Server.get_token_price s tokenAddress
      ((r.map RpcValue.decimal, calls), s)
  | ZksCall.getAllAccountBalances address =>
      let (r, calls) := Server.get_all_account_balances s address
      ((r.map RpcValue.balances, calls), s)
  | ZksCall.getL2ToL1MsgProof block sender msg pos =>
      let (r, calls) := Server.get_l2_to_l1_msg_proof s block sender msg pos
      ((r.map RpcValue.optLogProof, calls), s)
  | ZksCall.getL2ToL1LogProof txHash index =>
      let (r, calls) := Server.get_l2_to_l1_log_proof s txHash index
      ((r.map RpcValue.optLogProof, calls), s)
  | ZksCall.l1BatchNumber =>
      let (r, calls) := Server.get_l1_batch_number s
      ((r.map RpcValue.u64, calls), s)
  | ZksCall.getL1BatchBlockRange batch =>
      let (r, calls) := Server.get_miniblock_range s batch
      ((r.map RpcValue.optBlockRange, calls), s)
  | ZksCall.getBlockDetails blockNumber =>
      let (r, calls) := Server.get_block_details s blockNumber
      ((r.map RpcValue.optBlockDetails, calls), s)
  | ZksCall.getTransactionDetails hash =>
      let (r, calls) := Server.get_transaction_details s hash
      ((r.map RpcValue.optTxDetails, calls), s)
  | ZksCall.getRawBlockTransactions blockNumber =>
      let (r, calls) := Server.get_raw_block_transactions s blockNumber
      ((r.map RpcValue.rawTransactions, calls), s)
  | ZksCall.getL1BatchDetails batch =>
      let (r, calls) := Server.get_l1_batch_details s batch
      ((r.map RpcValue.optBatchDetails, calls), s)
  | ZksCall.getBytecodeByHash hash =>
      let (r, calls) := Server.get_bytecode_by_hash s hash
      ((r.map RpcValue.optBytecode, calls), s)
  | ZksCall.getL1GasPrice =>
      let (r, calls) := Server.get_l1_gas_price s
      ((r.map RpcValue.u64, calls), s)
  | ZksCall.getFeeParams =>
      let (r, calls) := Server.get_fee_params s
      ((r.map RpcValue.feeParams, calls), s)
  | ZksCall.getProtocolVersion versionId =>
      let (r, calls) := Server.get_protocol_version s versionId
      ((r.map RpcValue.optProtocolVersion, calls), s)
  | ZksCall.getProof address keys l1BatchNumber =>
      let (r, calls) := Server.get_proof s address keys l1BatchNumber
      ((r.map RpcValue.storageProof, calls), s)

/-- Serving a sequence of inbound calls, threading the server value through
(the general shape that would permit mutation; the handlers do not use it). -/
def serveAll (s : Server) : List ZksCall → Server
  | [] => s
  | c :: rest => serveAll (dispatchCall s c).2 rest

/-- A bound TCP listener returned by the external `ServerBuilder::build`,
opaque to the gateway. -/
structure Listener where
  id : Nat

/-- The external jsonrpsee server library, as an oracle: `build` attempts to
bind a listener on the given address (Rust `ServerBuilder::default().build(..)`)
and `localAddr` reads the bound socket address back (`Server::local_addr`),
each either succeeding or failing with a rendered error. -/
structure Network where
  build : String → Except String Listener
  localAddr : Listener → Except String String

/-- The fixed listen address string passed to `ServerBuilder::build`
(src/rpc.rs line 35). -/
def bindAddress : String := "127.0.0.1:7000"

/-- The handle returned by `server.start(self.into_rpc())`: it references the
rpc module built from the server value. -/
structure ServerHandle where
  rpcModule : Server

/-- The possible outcomes of `Server::run`: the declared `Ok` value (bound
address plus handle), the declared `Err` value, or a Rust panic — the
`.unwrap()` on the build result (src/rpc.rs line 37) panics instead of
returning when the bind fails. -/
inductive RunResult where
  | ok (addr : String) (handle : ServerHandle)
  | err (msg : String)
  | panicked (msg : String)

/-- `Server::run` (src/rpc.rs lines 33-42): build (bind) at the fixed address,
`.unwrap()` the outcome (panic on failure), read `local_addr` (propagating its
failure with `?`), start the rpc module, return the address and the handle. -/
def Server.run (s : Server) (net : Network) : RunResult :=
  match net.build bindAddress with
  | Except.error m => RunResult.panicked m
  | Except.ok listener =>
    match net.localAddr listener with
    | Except.error e => RunResult.err e
    | Except.ok addr => RunResult.ok addr { rpcModule := s }

/-- A `RunResult` with the handle forgotten: what of the outcome is observable
without the rpc module (used to state that the outcome's classification and
address do not depend on the upstream client stored in the server). -/
inductive RunShape where
  | ok (addr : String)
  | err (msg : String)
  | panicked (msg : String)

/-- Forget the handle of a `RunResult`. -/
def RunResult.shape : RunResult → RunShape
  | RunResult.ok a _ => RunShape.ok a
  | RunResult.err m => RunShape.err m
  | RunResult.panicked m => RunShape.panicked m

/-- How the process terminates, as observable from outside: a normal exit with
the lines it printed (main returned `Ok(())`, success exit status), an error
exit (main returned `Err` through `?`, non-success exit status), or a panic
(non-success exit status, no line printed by main). -/
inductive ProcOutcome where
  | okExit (printed : List String)
  | errExit (msg : String)
  | panicked (msg : String)

/-- `main` (src/main.rs lines 6-21): build the upstream HTTP client
(`?` propagates a failure as main's `Err`), construct the server, run it;
on `Ok` print the bound address and block on `handle.stopped()` then return
`Ok(())`; on `Err` print the failure message and still return `Ok(())`.
A panic inside `run` propagates: main prints nothing and the process aborts. -/
def mainFn (clientBuild : Except String ZksClient) (net : Network) : ProcOutcome :=
  match clientBuild with
  | Except.error e => ProcOutcome.errExit e
  | Except.ok client =>
    match (Server.new client).run net with
    | RunResult.panicked m => ProcOutcome.panicked m
    | RunResult.ok addr _ => ProcOutcome.okExit (["port " ++ addr])
    | RunResult.err e => ProcOutcome.okExit (["Failed to start server: " ++ e])

/-- The type vocabulary of the declared API surface, naming every parameter and
result type that occurs in the `ZksApi` trait and in the spec's method table.
Dictionary between the two: Rust `U256` / the spec's "integer (256-bit
unsigned)" and "balance" are `u256`; Rust `U64` / "integer (64-bit unsigned)"
is `u64`; Rust `H256` / the spec's "hash", "message hash", "tx hash" and "key"
are `hash`; Rust `MiniblockNumber` / "block number" is `blockNumber`; Rust
`L1BatchNumber` / "batch number" is `batchNumber`; Rust `usize` / the spec's
"log position" and "index" are `usize`; Rust `L2ToL1LogProof` / "proof" is
`logProof`; Rust `Proof` / "storage proof" is `storageProof`; Rust `Vec<u8>` /
"byte sequence" is `list u8`. -/
inductive RpcType where
  | callRequest
  | address
  | hash
  | decimal
  | u256
  | u64
  | u32
  | u16
  | u8
  | usize
  | tokenDescriptor
  | bridgeAddressSet
  | feeParamSet
  | blockDetails
  | txDetails
  | batchDetails
  | protocolVersionDescriptor
  | rawTransaction
  | logProof
  | storageProof
  | blockNumber
  | batchNumber
  | option (t : RpcType)
  | list (t : RpcType)
  | pair (a b : RpcType)
  | mapping (k v : RpcType)
  deriving DecidableEq

/-- One declared method: wire name, parameter types in declared order, result
type. -/
structure MethodDescriptor where
  wireName : String
  params : List RpcType
  result : RpcType
  deriving DecidableEq

/-- The namespace of the `#[rpc]` attribute on the `ZksApi` trait. -/
def zksNamespace : String := "zks"

/-- The declared method table, transcribed from the `ZksApi` trait
(src/rpc.rs lines 45-145) in declaration order: wire name from each
`#[method(name = ...)]` attribute, parameter and result types from each Rust
signature via the dictionary at `RpcType`. -/
def zksApiMethods : List MethodDescriptor :=
  [ { wireName := "estimateGasL1ToL2", params := [RpcType.callRequest], result := RpcType.u256 },
    { wireName := "getMainContract", params := [], result := RpcType.address },
    { wireName := "getTestnetPaymaster", params := [],
      result := RpcType.option RpcType.address },
    { wireName := "getBridgeContracts", params := [], result := RpcType.bridgeAddressSet },
    { wireName := "L1ChainId", params := [], result := RpcType.u64 },
    { wireName := "getConfirmedTokens", params := [RpcType.u32, RpcType.u8],
      result := RpcType.list RpcType.tokenDescriptor },
    { wireName := "getTokenPrice", params := [RpcType.address], result := RpcType.decimal },
    { wireName := "getAllAccountBalances", params := [RpcType.address],
      result := RpcType.mapping RpcType.address RpcType.u256 },
    { wireName := "getL2ToL1MsgProof",
      params := [RpcType.blockNumber, RpcType.address, RpcType.hash,
                 RpcType.option RpcType.usize],
      result := RpcType.option RpcType.logProof },
    { wireName := "getL2ToL1LogProof",
      params := [RpcType.hash, RpcType.option RpcType.usize],
      result := RpcType.option RpcType.logProof },
    { wireName := "L1BatchNumber", params := [], result := RpcType.u64 },
    { wireName := "getL1BatchBlockRange", params := [RpcType.batchNumber],
      result := RpcType.option (RpcType.pair RpcType.u64 RpcType.u64) },
    { wireName := "getBlockDetails", params := [RpcType.blockNumber],
      result := RpcType.option RpcType.blockDetails },
    { wireName := "getTransactionDetails", params := [RpcType.hash],
      result := RpcType.option RpcType.txDetails },
    { wireName := "getRawBlockTransactions", params := [RpcType.blockNumber],
      result := RpcType.list RpcType.rawTransaction },
    { wireName := "getL1BatchDetails", params := [RpcType.batchNumber],
      result := RpcType.option RpcType.batchDetails },
    { wireName := "getBytecodeByHash", params := [RpcType.hash],
      result := RpcType.option (RpcType.list RpcType.u8) },
    { wireName := "getL1GasPrice", params := [], result := RpcType.u64 },
    { wireName := "getFeeParams", params := [], result := RpcType.feeParamSet },
    { wireName := "getProtocolVersion", params := [RpcType.option RpcType.u16],
      result := RpcType.option RpcType.protocolVersionDescriptor },
    { wireName := "getProof",
      params := [RpcType.address, RpcType.list RpcType.hash, RpcType.batchNumber],
      result := RpcType.storageProof } ]

/-- Following the spec's words: the method table of section 4.1, row for row
(wire method, parameters, result), rendered in the same type vocabulary via the
dictionary at `RpcType`; declared separately from `zksApiMethods` so that the
two can be compared. -/
def specTableMethods : List MethodDescriptor :=
  [ { wireName := "estimateGasL1ToL2", params := [RpcType.callRequest], result := RpcType.u256 },
    { wireName := "getMainContract", params := [], result := RpcType.address },
    { wireName := "getTestnetPaymaster", params := [],
      result := RpcType.option RpcType.address },
    { wireName := "getBridgeContracts", params := [], result := RpcType.bridgeAddressSet },
    { wireName := "L1ChainId", params := [], result := RpcType.u64 },
    { wireName := "getConfirmedTokens", params := [RpcType.u32, RpcType.u8],
      result := RpcType.list RpcType.tokenDescriptor },
    { wireName := "getTokenPrice", params := [RpcType.address], result := RpcType.decimal },
    { wireName := "getAllAccountBalances", params := [RpcType.address],
      result := RpcType.mapping RpcType.address RpcType.u256 },
    { wireName := "getL2ToL1MsgProof",
      params := [RpcType.blockNumber, RpcType.address, RpcType.hash,
                 RpcType.option RpcType.usize],
      result := RpcType.option RpcType.logProof },
    { wireName := "getL2ToL1LogProof",
      params := [RpcType.hash, RpcType.option RpcType.usize],
      result := RpcType.option RpcType.logProof },
    { wireName := "L1BatchNumber", params := [], result := RpcType.u64 },
    { wireName := "getL1BatchBlockRange", params := [RpcType.batchNumber],
      result := RpcType.option (RpcType.pair RpcType.u64 RpcType.u64) },
    { wireName := "getBlockDetails", params := [RpcType.blockNumber],
      result := RpcType.option RpcType.blockDetails },
    { wireName := "getTransactionDetails", params := [RpcType.hash],
      result := RpcType.option RpcType.txDetails },
    { wireName := "getRawBlockTransactions", params := [RpcType.blockNumber],
      result := RpcType.list RpcType.rawTransaction },
    { wireName := "getL1BatchDetails", params := [RpcType.batchNumber],
      result := RpcType.option RpcType.batchDetails },
    { wireName := "getBytecodeByHash", params := [RpcType.hash],
      result := RpcType.option (RpcType.list RpcType.u8) },
    { wireName := "getL1GasPrice", params := [], result := RpcType.u64 },
    { wireName := "getFeeParams", params := [], result := RpcType.feeParamSet },
    { wireName := "getProtocolVersion", params := [RpcType.option RpcType.u16],
      result := RpcType.option RpcType.protocolVersionDescriptor },
    { wireName := "getProof",
      params := [RpcType.address, RpcType.list RpcType.hash, RpcType.batchNumber],
      result := RpcType.storageProof } ]

/-- The JSON-RPC 2.0 standard's reserved error-code range: codes from -32768
to -32000 inclusive are reserved by the protocol (JSON-RPC 2.0, section 5.1). -/
def jsonRpcReservedCode (c : Int) : Prop :=
  -32768 ≤ c ∧ c ≤ -32000

/-- The JSON-RPC 2.0 standard's pre-defined error codes: parse error, invalid
request, method not found, invalid params, internal error. -/
def jsonRpcPredefinedCodes : List Int :=
  [-32700, -32600, -32601, -32602, -32603]

/-- The JSON-RPC 2.0 standard's band -32099..-32000, reserved for
implementation-defined server errors. -/
def jsonRpcServerErrorBand (c : Int) : Prop :=
  -32099 ≤ c ∧ c ≤ -32000

instance (c : Int) : Decidable (jsonRpcReservedCode c) := by
  unfold jsonRpcReservedCode; infer_instance

instance (c : Int) : Decidable (jsonRpcServerErrorBand c) := by
  unfold jsonRpcServerErrorBand; infer_instance



/-- A concrete upstream client for evaluating the theorems: every operation
succeeds, with `L1ChainId` answering 9 and `getConfirmedTokens` answering a
three-element token list. -/
def testClient : ZksClient :=
  { estimate_gas_l1_to_l2 := fun _ => Except.ok { val := 1 },
    get_main_contract := Except.ok { val := 2 },
    get_testnet_paymaster := Except.ok (some { val := 3 }),
    get_bridge_contracts := Except.ok { val := 4 },
    l1_chain_id := Except.ok { val := 9 },
    get_confirmed_tokens := fun _ _ =>
      Except.ok [{ val := 1 }, { val := 2 }, { val := 3 }],
    get_token_price := fun _ => Except.ok { mantissa := 314, scale := 2 },
    get_all_account_balances := fun _ => Except.ok [({ val := 5 }, { val := 6 })],
    get_l2_to_l1_msg_proof := fun _ _ _ _ => Except.ok (some { val := 7 }),
    get_l2_to_l1_log_proof := fun _ _ => Except.ok (some { val := 8 }),
    get_l1_batch_number := Except.ok { val := 10 },
    get_miniblock_range := fun _ => Except.ok (some ({ val := 11 }, { val := 12 })),
    get_block_details := fun _ => Except.ok (some { val := 13 }),
    get_transaction_details := fun _ => Except.ok (some { val := 14 }),
    get_raw_block_transactions := fun _ => Except.ok [{ val := 15 }],
    get_l1_batch_details := fun _ => Except.ok (some { val := 16 }),
    get_bytecode_by_hash := fun _ => Except.ok (some [17, 18]),
    get_l1_gas_price := Except.ok { val := 19 },
    get_fee_params := Except.ok { val := 20 },
    get_protocol_version := fun _ => Except.ok (some { val := 21 }),
    get_proof := fun _ _ _ => Except.ok { val := 22 } }

/-- A concrete upstream client for evaluating the error-path theorems: every
operation fails, `getTokenPrice` with the structured upstream error of the
spec's example (code -32010, message "unknown token"), everything else with a
transport failure. -/
def failClient : ZksClient :=
  { estimate_gas_l1_to_l2 := fun _ => Except.error (ClientError.transport ("connection refused")),
    get_main_contract := Except.error (ClientError.transport ("connection refused")),
    get_testnet_paymaster := Except.error (ClientError.transport ("connection refused")),
    get_bridge_contracts := Except.error (ClientError.transport ("connection refused")),
    l1_chain_id := Except.error (ClientError.transport ("connection refused")),
    get_confirmed_tokens := fun _ _ => Except.error (ClientError.transport ("connection refused")),
    get_token_price := fun _ =>
      Except.error (ClientError.call (-32010) ("unknown token") none),
    get_all_account_balances := fun _ =>
      Except.error (ClientError.transport ("connection refused")),
    get_l2_to_l1_msg_proof := fun _ _ _ _ =>
      Except.error (ClientError.transport ("connection refused")),
    get_l2_to_l1_log_proof := fun _ _ =>
      Except.error (ClientError.transport ("connection refused")),
    get_l1_batch_number := Except.error (ClientError.transport ("connection refused")),
    get_miniblock_range := fun _ => Except.error (ClientError.transport ("connection refused")),
    get_block_details := fun _ => Except.error (ClientError.transport ("connection refused")),
    get_transaction_details := fun _ =>
      Except.error (ClientError.transport ("connection refused")),
    get_raw_block_transactions := fun _ =>
      Except.error (ClientError.transport ("connection refused")),
    get_l1_batch_details := fun _ => Except.error (ClientError.transport ("connection refused")),
    get_bytecode_by_hash := fun _ => Except.error (ClientError.transport ("connection refused")),
    get_l1_gas_price := Except.error (ClientError.transport ("connection refused")),
    get_fee_params := Except.error (ClientError.transport ("connection refused")),
    get_protocol_version := fun _ => Except.error (ClientError.transport ("connection refused")),
    get_proof := fun _ _ _ => Except.error (ClientError.transport ("connection refused")) }

/-- A concrete network oracle on which the bind succeeds and the local address
reads back as the fixed listen address. -/
def goodNet : Network :=
  { build := fun _ => Except.ok { id := 0 },
    localAddr := fun _ => Except.ok bindAddress }

/-- A concrete network oracle on which the bind fails. -/
def failBindNet : Network :=
  { build := fun _ => Except.error ("address already in use"),
    localAddr := fun _ => Except.error ("no listener") }

theorem mapClientError_map_ok {α : Type} (inj : α → RpcValue) (x : Except ClientError α)
    (v : RpcValue) (h : x.map inj = Except.ok v) :
    (mapClientError x).map inj = Except.ok v := by
  cases x <;> simp_all [mapClientError, Except.map]

theorem mapClientError_map_error {α : Type} (inj : α → RpcValue) (x : Except ClientError α)
    (e : ClientError) (h : x.map inj = Except.error e) :
    wireResult ((mapClientError x).map inj) =
      Except.error { code := sentinelCode, message := e.render, data := none } := by
  cases x <;>
    simp_all [mapClientError, Except.map, wireResult, ClaraError.toErrorObject,
      ClaraError.render]

/-- C1: for every declared method of the `zks` namespace, when the upstream
client call succeeds with a value v, the gateway handler returns exactly v to
the caller, for every possible upstream success value. -/
theorem zks_dispatch_identity_on_success (s : Server) (c : ZksCall) (v : RpcValue)
    (h : s.zksync.respond c = Except.ok v) :
    (dispatchCall s c).1.1 = Except.ok v := by
  cases c <;> exact mapClientError_map_ok _ _ _ h

theorem zks_dispatch_identity_on_success_witness :
    (dispatchCall (Server.new testClient) ZksCall.l1ChainId).1.1 =
      Except.ok (RpcValue.u64 { val := 9 }) :=
  zks_dispatch_identity_on_success (Server.new testClient) ZksCall.l1ChainId
    (RpcValue.u64 { val := 9 }) rfl

/-- C2: for every declared method and every possible upstream failure
(structured or transport), the error returned to the caller has the fixed
sentinel code, the failure's rendered description as message, and no data
field — the same shape regardless of failure origin or method. -/
theorem zks_error_translation_uniform (s : Server) (c : ZksCall) (e : ClientError)
    (h : s.zksync.respond c = Except.error e) :
    wireResult (dispatchCall s c).1.1 =
      Except.error { code := sentinelCode, message := e.render, data := none } := by
  cases c <;> exact mapClientError_map_error _ _ _ h

theorem zks_error_translation_uniform_witness :
    wireResult (dispatchCall (Server.new failClient) ZksCall.l1ChainId).1.1 =
      Except.error { code := sentinelCode, message := "connection refused", data := none } :=
  zks_error_translation_uniform (Server.new failClient) ZksCall.l1ChainId
    (ClientError.transport ("connection refused")) rfl

/-- C3: when the upstream client fails with a structured error carrying a code,
a message and possibly a payload, the outbound error's message equals exactly
the upstream message text, with the original code and payload discarded. -/
theorem structured_error_message_preserved (s : Server) (c : ZksCall) (ecode : Int)
    (msg : String) (payload : Option String)
    (h : s.zksync.respond c = Except.error (ClientError.call ecode msg payload)) :
    wireResult (dispatchCall s c).1.1 =
      Except.error { code := sentinelCode, message := msg, data := none } := by
  cases c <;> exact mapClientError_map_error _ _ _ h

theorem structured_error_message_preserved_witness :
    wireResult (dispatchCall (Server.new failClient)
        (ZksCall.getTokenPrice { val := 30 })).1.1 =
      Except.error { code := sentinelCode, message := "unknown token", data := none } :=
  structured_error_message_preserved (Server.new failClient)
    (ZksCall.getTokenPrice { val := 30 }) (-32010) ("unknown token") none rfl

/-- C4: the gateway declares exactly the fixed 21-row method table of the spec
under the single `zks` namespace, with each wire name, parameter list (order
and widths) and result type matching the spec's table row for row. -/
theorem zks_method_table_matches_spec :
    zksApiMethods = specTableMethods ∧ zksApiMethods.length = 21 ∧
      zksNamespace = "zks" :=
  ⟨rfl, rfl, rfl⟩

/-- C5 counterexample: the sentinel code -32000 lies inside the JSON-RPC 2.0
reserved code range -32768..-32000, so it is not outside the standard reserved
range. -/
theorem sentinel_code_in_reserved_range : jsonRpcReservedCode sentinelCode := by
  decide

/-- C5 (amended): the sentinel code is distinct from every pre-defined JSON-RPC
error code, and sits in the band -32099..-32000 the standard sets aside for
implementation-defined server errors — which is inside, not outside, the
protocol's reserved range. -/
theorem sentinel_code_classification :
    sentinelCode ∉ jsonRpcPredefinedCodes ∧ jsonRpcServerErrorBand sentinelCode ∧
      jsonRpcReservedCode sentinelCode := by
  decide

/-- C6 counterexample: on a failed bind, `Server::run` panics (the `.unwrap()`
on the build result) instead of returning the failure as an `Err` value. -/
theorem run_panics_on_failed_bind :
    Server.run (Server.new testClient) failBindNet =
      RunResult.panicked ("address already in use") := rfl

/-- C6 (amended): `Server::run` is total over its declared result type only
once the bind has succeeded: it then returns `Ok` with the bound address and a
handle, or returns the local-address error as an `Err` value; a failed bind
instead panics. -/
theorem run_total_after_successful_bind (s : Server) (net : Network) (l : Listener)
    (h : net.build bindAddress = Except.ok l) :
    (∃ a hdl, Server.run s net = RunResult.ok a hdl) ∨
      (∃ e, Server.run s net = RunResult.err e) := by
  cases hl : net.localAddr l with
  | error e => exact Or.inr ⟨e, by simp [Server.run, h, hl]⟩
  | ok a => exact Or.inl ⟨a, { rpcModule := s }, by simp [Server.run, h, hl]⟩

theorem run_total_after_successful_bind_witness :
    (∃ a hdl, Server.run (Server.new testClient) goodNet = RunResult.ok a hdl) ∨
      (∃ e, Server.run (Server.new testClient) goodNet = RunResult.err e) :=
  run_total_after_successful_bind (Server.new testClient) goodNet { id := 0 } rfl

/-- C7 counterexample: on a listener bind failure the process panics — it does
not print the failure message and does not terminate with a success exit
status. -/
theorem main_panics_on_failed_bind :
    mainFn (Except.ok testClient) failBindNet =
      ProcOutcome.panicked ("address already in use") := rfl

/-- C7 (amended): once the bind succeeds, the process prints the bound address
and exits with a success status after the handle reports stopped; a startup
error surfaced as `Err` (a local-address failure after a successful bind) is
printed as a failure message, also with a success exit status; a bind failure
itself panics instead. -/
theorem main_print_and_exit_behaviour (cl : ZksClient) (net : Network) (l : Listener)
    (h : net.build bindAddress = Except.ok l) :
    (∀ a, net.localAddr l = Except.ok a →
        mainFn (Except.ok cl) net = ProcOutcome.okExit (["port " ++ a])) ∧
      (∀ e, net.localAddr l = Except.error e →
        mainFn (Except.ok cl) net =
          ProcOutcome.okExit (["Failed to start server: " ++ e])) := by
  constructor
  · intro a ha
    simp [mainFn, Server.run, h, ha]
  · intro e he
    simp [mainFn, Server.run, h, he]

theorem main_print_and_exit_behaviour_witness :
    mainFn (Except.ok testClient) goodNet =
      ProcOutcome.okExit (["port " ++ bindAddress]) :=
  (main_print_and_exit_behaviour testClient goodNet { id := 0 } rfl).1 bindAddress rfl

/-- C8: every inbound call to a declared method performs exactly one outbound
upstream call — the matching operation with the inbound parameters in the same
order — never zero, never more than one. -/
theorem one_upstream_call_per_dispatch (s : Server) (c : ZksCall) :
    (dispatchCall s c).1.2 = [c] := by
  cases c <;> rfl

/-- C9: the listen address is the compile-time constant 127.0.0.1:7000;
`Server::run` consults the network only at that address, for every server
value, and the outcome's observable shape is independent of the stored
upstream client. -/
theorem bind_address_fixed_and_client_independent :
    bindAddress = "127.0.0.1:7000" ∧
      (∀ (s : Server) (n₁ n₂ : Network), n₁.build bindAddress = n₂.build bindAddress →
        n₁.localAddr = n₂.localAddr → Server.run s n₁ = Server.run s n₂) ∧
      (∀ (s t : Server) (net : Network),
        (Server.run s net).shape = (Server.run t net).shape) := by
  refine ⟨rfl, ?_, ?_⟩
  · intro s n₁ n₂ h1 h2
    unfold Server.run
    rw [h1, h2]
  · intro s t net
    cases hb : net.build bindAddress with
    | error m => simp [Server.run, hb, RunResult.shape]
    | ok l =>
      cases hl : net.localAddr l with
      | error e => simp [Server.run, hb, hl, RunResult.shape]
      | ok a => simp [Server.run, hb, hl, RunResult.shape]

theorem dispatchCall_preserves_server (s : Server) (c : ZksCall) :
    (dispatchCall s c).2 = s := by
  cases c <;> rfl

theorem serveAll_fixed (calls : List ZksCall) (s : Server) : serveAll s calls = s := by
  induction calls generalizing s with
  | nil => rfl
  | cons c rest ih =>
      show serveAll (dispatchCall s c).2 rest = s
      rw [dispatchCall_preserves_server]
      exact ih s

/-- C10: no handler mutates any field of the server — the dispatcher hands the
server value back unchanged, so after any sequence of calls the server equals
the value `Server::new` produced. -/
theorem server_state_read_only (cl : ZksClient) (calls : List ZksCall) :
    serveAll (Server.new cl) calls = Server.new cl ∧
      ∀ (s : Server) (c : ZksCall), (dispatchCall s c).2 = s :=
  ⟨serveAll_fixed calls (Server.new cl), fun s c => dispatchCall_preserves_server s c⟩
